import Mathlib

/-!
Verification of the `[3]Deterministic_tractography.ipynb` notebook.

The notebook is a straight-line Jupyter script that calls the dipy
diffusion-imaging library.  We embed it at two levels:

* a *static* model (`notebookStmts`): the sequence of statements of the
  notebook's code cells, transcribed with their defined names, used names,
  call arguments (literal vs. variable), guards (`if has_fury:`) and shell
  escapes.  Ordering, branching, literal-parameter and no-error-handling
  claims are settled here.

* a *dynamic* model (`runNotebook`): the same straight-line program run
  against an abstract dipy interface (`DipyLib`), in an `Except` monad so
  that any library failure aborts the run, accumulating the files written.
  Determinism, output-file and `has_fury`-independence claims are settled
  here.

Library internals (tensor fitting, peak finding, streamline propagation)
are not part of this repository; they appear as abstract function fields
of `DipyLib`.  The two library behaviours the claims do depend on,
`seeds_from_mask` and the mask handling of `peaks_from_model`, are
modelled concretely from the spec.
-/

namespace Cygnus

/-! ## Static model: the notebook's statements -/

/-- A literal parameter value appearing in a notebook call. -/
inductive PVal where
  | pstr (s : String)
  | pnat (n : Nat)
  | pfrac (num den : Nat)
  | pnats (l : List Nat)
  | pbool (b : Bool)
  deriving DecidableEq, Repr

/-- An argument of a notebook call: a literal, or a reference to a variable
defined earlier in the notebook. -/
inductive Arg where
  | lit (v : PVal)
  | var (x : String)
  deriving DecidableEq, Repr

/-- The kind of a notebook statement.  Constructors `tryExceptBlock`,
`threadSpawn` and `asyncTask` are expressible so that their absence from
the transcription is a statement about the source, not about the model. -/
inductive StmtKind where
  | importNames
  | assignCall (fn : String) (args : List (String × Arg))
  | exprCall (fn : String) (args : List (String × Arg))
  | labelMask (src : String) (vals : List Nat)
  | attrGet (a : String)
  | vizBlock (outFile : String)
  | shellCmd (cmd : String) (background : Bool)
  | commentOnly
  | tryExceptBlock
  | threadSpawn
  | asyncTask
  deriving DecidableEq, Repr

/-- One statement of the notebook, with the names it defines, the names it
uses, and the guard it sits under (`some "has_fury"` for the two
visualization blocks). -/
structure Stmt where
  kind : StmtKind
  defines : List String := []
  uses : List String := []
  guard : Option String := none
  deriving DecidableEq, Repr

/-- The notebook's code cells, statement by statement, in source order. -/
def notebookStmts : List Stmt := [
  -- cell 4
  { kind := .importNames,
    defines := ["gradient_table", "get_fnames", "read_bvals_bvecs", "load_nifti"] },
  { kind := .assignCall "get_fnames" [("name", .lit (.pstr "stanford_hardi"))],
    defines := ["hardi_fname", "hardi_bval_fname", "hardi_bvec_fname"],
    uses := ["get_fnames"] },
  { kind := .assignCall "load_nifti"
      [("fname", .var "hardi_fname"), ("return_img", .lit (.pbool true))],
    defines := ["data", "affine", "hardi_img"],
    uses := ["load_nifti", "hardi_fname"] },
  { kind := .assignCall "read_bvals_bvecs"
      [("bval_file", .var "hardi_bval_fname"), ("bvec_file", .var "hardi_bvec_fname")],
    defines := ["bvals", "bvecs"],
    uses := ["read_bvals_bvecs", "hardi_bval_fname", "hardi_bvec_fname"] },
  { kind := .assignCall "gradient_table" [("bvals", .var "bvals"), ("bvecs", .var "bvecs")],
    defines := ["gtab"],
    uses := ["gradient_table", "bvals", "bvecs"] },
  -- cell 6
  { kind := .importNames, defines := ["median_otsu"] },
  { kind := .assignCall "median_otsu"
      [("data", .var "data"), ("vol_idx", .lit (.pnats [0, 1, 2, 3, 4, 5, 6, 7, 8])),
       ("numpass", .lit (.pnat 1)), ("dilate", .lit (.pnat 5))],
    defines := ["maskdata", "mask"],
    uses := ["median_otsu", "data"] },
  -- cell 8
  { kind := .importNames, defines := ["load_nifti_data"] },
  { kind := .assignCall "get_fnames" [("name", .lit (.pstr "stanford_labels"))],
    defines := ["label_fname"],
    uses := ["get_fnames"] },
  { kind := .assignCall "load_nifti_data" [("fname", .var "label_fname")],
    defines := ["labels"],
    uses := ["load_nifti_data", "label_fname"] },
  { kind := .labelMask "labels" [1, 2],
    defines := ["white_matter"],
    uses := ["labels"] },
  -- cell 10
  { kind := .importNames, defines := ["TensorModel"] },
  { kind := .assignCall "TensorModel" [("gtab", .var "gtab")],
    defines := ["dti_model"],
    uses := ["TensorModel", "gtab"] },
  -- cell 12
  { kind := .importNames, defines := ["peaks_from_model", "default_sphere"] },
  { kind := .assignCall "peaks_from_model"
      [("model", .var "dti_model"), ("data", .var "maskdata"),
       ("sphere", .var "default_sphere"),
       ("relative_peak_threshold", .lit (.pfrac 8 10)),
       ("min_separation_angle", .lit (.pnat 45)),
       ("mask", .var "white_matter")],
    defines := ["dti_peaks"],
    uses := ["peaks_from_model", "dti_model", "maskdata", "default_sphere", "white_matter"] },
  -- cell 14
  { kind := .importNames, defines := ["window", "actor", "has_fury"] },
  { kind := .vizBlock "dti_direction_field.png",
    defines := ["scene"],
    uses := ["has_fury", "window", "actor", "dti_peaks"],
    guard := some "has_fury" },
  -- cell 17
  { kind := .importNames, defines := ["utils"] },
  { kind := .labelMask "labels" [2],
    defines := ["seed_mask"],
    uses := ["labels"] },
  { kind := .assignCall "seeds_from_mask"
      [("mask", .var "seed_mask"), ("affine", .var "affine"),
       ("density", .lit (.pnats [3, 3, 3]))],
    defines := ["seeds"],
    uses := ["utils", "seed_mask", "affine"] },
  -- cell 20
  { kind := .assignCall "fit" [("model", .var "dti_model"), ("data", .var "maskdata")],
    defines := ["dti_fit"],
    uses := ["dti_model", "maskdata"] },
  { kind := .attrGet "fa",
    defines := ["fa"],
    uses := ["dti_fit"] },
  -- cell 22
  { kind := .importNames, defines := ["ThresholdStoppingCriterion"] },
  { kind := .assignCall "ThresholdStoppingCriterion"
      [("metric_map", .var "fa"), ("threshold", .lit (.pfrac 2 10))],
    defines := ["stopping_criterion"],
    uses := ["ThresholdStoppingCriterion", "fa"] },
  -- cell 25
  { kind := .importNames, defines := ["LocalTracking"] },
  { kind := .assignCall "LocalTracking"
      [("direction_getter", .var "dti_peaks"),
       ("stopping_criterion", .var "stopping_criterion"),
       ("seeds", .var "seeds"), ("affine", .var "affine"),
       ("step_size", .lit (.pfrac 5 10))],
    defines := ["streamlines_generator"],
    uses := ["LocalTracking", "dti_peaks", "stopping_criterion", "seeds", "affine"] },
  -- cell 27
  { kind := .importNames, defines := ["Streamlines"] },
  { kind := .assignCall "Streamlines" [("generator", .var "streamlines_generator")],
    defines := ["streamlines"],
    uses := ["Streamlines", "streamlines_generator"] },
  -- cell 29
  { kind := .importNames, defines := ["colormap"] },
  { kind := .vizBlock "dti_tractogram.png",
    defines := ["color", "streamlines_actor", "scene"],
    uses := ["has_fury", "colormap", "streamlines", "actor", "window"],
    guard := some "has_fury" },
  -- cell 31
  { kind := .importNames, defines := ["Space", "StatefulTractogram", "save_trk"] },
  { kind := .assignCall "StatefulTractogram"
      [("streamlines", .var "streamlines"), ("reference", .var "hardi_img"),
       ("space", .lit (.pstr "RASMM"))],
    defines := ["sft"],
    uses := ["StatefulTractogram", "streamlines", "hardi_img", "Space"] },
  { kind := .exprCall "save_trk"
      [("sft", .var "sft"),
       ("filename", .lit (.pstr "dti_CC_tractography_deterministic.trk")),
       ("third_positional", .var "streamlines")],
    uses := ["save_trk", "sft", "streamlines"] },
  -- cells 32-38: shell escapes and a fully commented cell
  { kind := .shellCmd "dir" false },
  { kind := .shellCmd "dipy_horizon dti_CC*trk" false },
  { kind := .shellCmd "dipy_horizon dti_CC*trk tensor_fa.nii.gz" false },
  { kind := .commentOnly },
  { kind := .shellCmd "dipy_horizon dti_CC*trk tensor_md.nii.gz" false },
  { kind := .shellCmd "dipy_horizon dti_CC*trk tensor_ad.nii.gz" false },
  { kind := .shellCmd "dipy_horizon dti_CC*trk tensor_rd.nii.gz" false }]

/-! ### Static predicates -/

/-- Does a statement call the given library function? -/
def callsFn (fn : String) (s : Stmt) : Bool :=
  match s.kind with
  | .assignCall g _ => g == fn
  | .exprCall g _ => g == fn
  | _ => false

/-- Index of the first statement calling `fn` (list length if none). -/
def firstCallIdx (stmts : List Stmt) (fn : String) : Nat :=
  stmts.findIdx (callsFn fn)

/-- Is the name `v` defined by some statement strictly before index `i`? -/
def definedBefore (stmts : List Stmt) (i : Nat) (v : String) : Bool :=
  (stmts.take i).any fun s => s.defines.contains v

/-- Every name a statement uses is defined by an earlier statement. -/
def depsRespected (stmts : List Stmt) : Bool :=
  stmts.enum.all fun p => p.2.uses.all fun v => definedBefore stmts p.1 v

/-- The argument that the first call of `fn` passes under parameter name `p`. -/
def argOf (stmts : List Stmt) (fn : String) (p : String) : Option Arg :=
  match stmts.find? (callsFn fn) with
  | none => none
  | some s =>
    match s.kind with
    | .assignCall _ args => (args.find? fun q => q.1 == p).map Prod.snd
    | .exprCall _ args => (args.find? fun q => q.1 == p).map Prod.snd
    | _ => none

/-- Parameter names that are tuning parameters rather than data inputs. -/
def tuningNames : List String :=
  ["name", "vol_idx", "numpass", "dilate", "relative_peak_threshold",
   "min_separation_angle", "density", "threshold", "step_size",
   "filename", "space", "return_img"]

/-- In a call statement, every tuning parameter is passed as a literal. -/
def tuningLiteral (s : Stmt) : Bool :=
  match s.kind with
  | .assignCall _ args | .exprCall _ args =>
    args.all fun q =>
      !(tuningNames.contains q.1) ||
        (match q.2 with | .lit _ => true | .var _ => false)
  | _ => true

def isLabelMaskK : StmtKind → Bool
  | .labelMask _ _ => true
  | _ => false

def isVizK : StmtKind → Bool
  | .vizBlock _ => true
  | _ => false

def isTryK : StmtKind → Bool
  | .tryExceptBlock => true
  | _ => false

def isThreadK : StmtKind → Bool
  | .threadSpawn => true
  | _ => false

def isAsyncK : StmtKind → Bool
  | .asyncTask => true
  | _ => false

/-- Does a statement start an operating-system process (a `!` shell escape)? -/
def startsProcessK : StmtKind → Bool
  | .shellCmd _ _ => true
  | _ => false

/-- A shell escape that is run synchronously (no background `&`). -/
def shellSync : StmtKind → Bool
  | .shellCmd _ bg => !bg
  | _ => true

/-- A statement whose own computation (not a library call) transforms data:
the elementwise label comparisons and the attribute access. -/
def ownTransformK : StmtKind → Bool
  | .labelMask _ _ => true
  | .attrGet _ => true
  | _ => false

/-! ## Dynamic model

The notebook run as a straight-line program over an abstract dipy
interface.  Opaque library objects are carrier structures; the values the
notebook itself computes (the label masks) are concrete lists. -/

/-- Error raised by a library call. -/
abbrev Err := String

structure DVolume where tag : Nat
  deriving DecidableEq

structure AffineT where tag : Nat
  deriving DecidableEq

structure NiftiImg where tag : Nat
  deriving DecidableEq

structure GradTable where tag : Nat
  deriving DecidableEq

structure TensorModelT where tag : Nat
  deriving DecidableEq

structure TensorFitT where tag : Nat
  deriving DecidableEq

structure FaMapT where tag : Nat
  deriving DecidableEq

structure SphereT where tag : Nat
  deriving DecidableEq

structure PeaksT where tag : Nat
  deriving DecidableEq

structure SeedsT where tag : Nat
  deriving DecidableEq

structure StopCritT where tag : Nat
  deriving DecidableEq

structure TrackGenT where tag : Nat
  deriving DecidableEq

structure StreamlinesT where tag : Nat
  deriving DecidableEq

/-- The coordinate spaces of a dipy StatefulTractogram. -/
inductive SpaceT where
  | RASMM
  | VOX
  | VOXMM
  deriving DecidableEq

/-- The dipy StatefulTractogram wrapper: streamlines with a reference image
and a coordinate space.  Modelled from the spec: dipy's constructor wraps
its three arguments. -/
structure SFT where
  streams : StreamlinesT
  refimg : NiftiImg
  space : SpaceT
  deriving DecidableEq

/-- The fixed discrete sphere `dipy.data.default_sphere`. -/
def default_sphere : SphereT := ⟨0⟩

/-- The dipy calls the notebook makes, as an abstract interface.  Each call
is a pure function that may fail; the library owns the algorithms, so their
bodies are unconstrained here.  Modelled from the spec: the library calls
are deterministic (the notebook's saved output is reproducible), so each is
a function of its arguments. -/
structure DipyLib where
  get_fnames3 : String → Except Err (String × String × String)
  get_fnames1 : String → Except Err String
  load_nifti : String → Except Err (DVolume × AffineT × NiftiImg)
  read_bvals_bvecs : String → String → Except Err (List Int × List (Int × Int × Int))
  gradient_table : List Int → List (Int × Int × Int) → Except Err GradTable
  median_otsu : DVolume → List Nat → Nat → Nat → Except Err (DVolume × List Bool)
  load_nifti_data : String → Except Err (List Nat)
  TensorModel : GradTable → Except Err TensorModelT
  peaks_from_model :
    TensorModelT → DVolume → SphereT → Rat → Nat → List Bool → Except Err PeaksT
  viz_peaks_png : PeaksT → Except Err (List Nat)
  seeds_from_mask : List Bool → AffineT → List Nat → Except Err SeedsT
  fit : TensorModelT → DVolume → Except Err TensorFitT
  fa_of : TensorFitT → Except Err FaMapT
  ThresholdStoppingCriterion : FaMapT → Rat → Except Err StopCritT
  LocalTracking : PeaksT → StopCritT → SeedsT → AffineT → Rat → Except Err TrackGenT
  StreamlinesOf : TrackGenT → Except Err StreamlinesT
  viz_stream_png : StreamlinesT → Except Err (List Nat)
  save_trk_bytes : SFT → StreamlinesT → Except Err (List Nat)

/-- A file written during the run: name and bytes. -/
abbrev FileWrite := String × List Nat

/-- The white-matter mask the notebook computes:
`white_matter = (labels == 1) | (labels == 2)`, elementwise. -/
def white_matter_of (labels : List Nat) : List Bool :=
  labels.map fun v => v == 1 || v == 2

/-- The seed mask the notebook computes: `seed_mask = (labels == 2)`,
elementwise. -/
def seed_mask_of (labels : List Nat) : List Bool :=
  labels.map fun v => v == 2

/-- A visualization cell: if `has_fury` holds, render (which may fail) and
write the image file; otherwise do nothing. -/
def vizStep (has_fury : Bool) (render : Except Err (List Nat)) (outFile : String) :
    Except Err (List FileWrite) :=
  if has_fury then
    match render with
    | .error e => .error e
    | .ok png => .ok [(outFile, png)]
  else .ok []

/-- The outcome of a successful run. -/
structure RunResult where
  streamlines : StreamlinesT
  sft : SFT
  trkBytes : List Nat
  deriving DecidableEq

/-- The compute core of a run: what the pipeline produces independently of
visualization. -/
structure CoreResult where
  streamlines : StreamlinesT
  refimg : NiftiImg
  trkBytes : List Nat
  deriving DecidableEq

/-- The notebook, cell by cell in source order: the pair of the files
written so far and the final outcome.  A failing library call aborts the
run, keeping the files already written. -/
def runNotebook (lib : DipyLib) (has_fury : Bool) :
    List FileWrite × Except Err RunResult :=
  match lib.get_fnames3 "stanford_hardi" with
  | .error e => ([], .error e)
  | .ok (hardi_fname, hardi_bval_fname, hardi_bvec_fname) =>
  match lib.load_nifti hardi_fname with
  | .error e => ([], .error e)
  | .ok (data, affine, hardi_img) =>
  match lib.read_bvals_bvecs hardi_bval_fname hardi_bvec_fname with
  | .error e => ([], .error e)
  | .ok (bvals, bvecs) =>
  match lib.gradient_table bvals bvecs with
  | .error e => ([], .error e)
  | .ok gtab =>
  match lib.median_otsu data [0, 1, 2, 3, 4, 5, 6, 7, 8] 1 5 with
  | .error e => ([], .error e)
  | .ok (maskdata, _mask) =>
  match lib.get_fnames1 "stanford_labels" with
  | .error e => ([], .error e)
  | .ok label_fname =>
  match lib.load_nifti_data label_fname with
  | .error e => ([], .error e)
  | .ok labels =>
  match lib.TensorModel gtab with
  | .error e => ([], .error e)
  | .ok dti_model =>
  match lib.peaks_from_model dti_model maskdata default_sphere
      ((8 : Rat) / 10) 45 (white_matter_of labels) with
  | .error e => ([], .error e)
  | .ok dti_peaks =>
  match vizStep has_fury (lib.viz_peaks_png dti_peaks) "dti_direction_field.png" with
  | .error e => ([], .error e)
  | .ok w1 =>
  match lib.seeds_from_mask (seed_mask_of labels) affine [3, 3, 3] with
  | .error e => (w1, .error e)
  | .ok seeds =>
  match lib.fit dti_model maskdata with
  | .error e => (w1, .error e)
  | .ok dti_fit =>
  match lib.fa_of dti_fit with
  | .error e => (w1, .error e)
  | .ok fa =>
  match lib.ThresholdStoppingCriterion fa ((2 : Rat) / 10) with
  | .error e => (w1, .error e)
  | .ok stopping_criterion =>
  match lib.LocalTracking dti_peaks stopping_criterion seeds affine ((5 : Rat) / 10) with
  | .error e => (w1, .error e)
  | .ok streamlines_generator =>
  match lib.StreamlinesOf streamlines_generator with
  | .error e => (w1, .error e)
  | .ok streamlines =>
  match vizStep has_fury (lib.viz_stream_png streamlines) "dti_tractogram.png" with
  | .error e => (w1, .error e)
  | .ok w2 =>
  match lib.save_trk_bytes ⟨streamlines, hardi_img, SpaceT.RASMM⟩ streamlines with
  | .error e => (w1 ++ w2, .error e)
  | .ok trk =>
  (w1 ++ w2 ++ [("dti_CC_tractography_deterministic.trk", trk)],
   .ok ⟨streamlines, ⟨streamlines, hardi_img, SpaceT.RASMM⟩, trk⟩)

/-- The same pipeline with the two visualization cells omitted: the compute
core, a function of the library alone. -/
def runCore (lib : DipyLib) : Except Err CoreResult :=
  match lib.get_fnames3 "stanford_hardi" with
  | .error e => .error e
  | .ok (hardi_fname, hardi_bval_fname, hardi_bvec_fname) =>
  match lib.load_nifti hardi_fname with
  | .error e => .error e
  | .ok (data, affine, hardi_img) =>
  match lib.read_bvals_bvecs hardi_bval_fname hardi_bvec_fname with
  | .error e => .error e
  | .ok (bvals, bvecs) =>
  match lib.gradient_table bvals bvecs with
  | .error e => .error e
  | .ok gtab =>
  match lib.median_otsu data [0, 1, 2, 3, 4, 5, 6, 7, 8] 1 5 with
  | .error e => .error e
  | .ok (maskdata, _mask) =>
  match lib.get_fnames1 "stanford_labels" with
  | .error e => .error e
  | .ok label_fname =>
  match lib.load_nifti_data label_fname with
  | .error e => .error e
  | .ok labels =>
  match lib.TensorModel gtab with
  | .error e => .error e
  | .ok dti_model =>
  match lib.peaks_from_model dti_model maskdata default_sphere
      ((8 : Rat) / 10) 45 (white_matter_of labels) with
  | .error e => .error e
  | .ok dti_peaks =>
  match lib.seeds_from_mask (seed_mask_of labels) affine [3, 3, 3] with
  | .error e => .error e
  | .ok seeds =>
  match lib.fit dti_model maskdata with
  | .error e => .error e
  | .ok dti_fit =>
  match lib.fa_of dti_fit with
  | .error e => .error e
  | .ok fa =>
  match lib.ThresholdStoppingCriterion fa ((2 : Rat) / 10) with
  | .error e => .error e
  | .ok stopping_criterion =>
  match lib.LocalTracking dti_peaks stopping_criterion seeds affine ((5 : Rat) / 10) with
  | .error e => .error e
  | .ok streamlines_generator =>
  match lib.StreamlinesOf streamlines_generator with
  | .error e => .error e
  | .ok streamlines =>
  match lib.save_trk_bytes ⟨streamlines, hardi_img, SpaceT.RASMM⟩ streamlines with
  | .error e => .error e
  | .ok trk => .ok ⟨streamlines, hardi_img, trk⟩

/-- Does a file name end in `.trk`? -/
def isTrkFileName (s : String) : Bool :=
  s.data.reverse.take 4 == ".trk".data.reverse

/-! ## Concrete models of the two mask-sensitive library behaviours -/

/-- The grid of `a * b * c` seed offsets inside one voxel. -/
def gridOffsets (a b c : Nat) : List (Nat × Nat × Nat) :=
  (List.range a).flatMap fun i => (List.range b).flatMap fun j =>
    (List.range c).map fun k => (i, j, k)

/-- Modelled from the spec: `dipy.tracking.utils.seeds_from_mask` places an
evenly spaced `density` grid of seeds inside every voxel where the mask is
true and no seed elsewhere (the library's code is not part of this
repository).  Voxels are flat indices into the mask. -/
def seeds_from_mask_model (mask : List Bool) (density : Nat × Nat × Nat) :
    List (Nat × (Nat × Nat × Nat)) :=
  ((List.range mask.length).filter fun i => mask.getD i false).flatMap fun i =>
    (gridOffsets density.1 density.2.1 density.2.2).map fun off => (i, off)

/-- The seeds the notebook requests: mask `labels == 2`, density `[3, 3, 3]`. -/
def notebookSeeds (labels : List Nat) : List (Nat × (Nat × Nat × Nat)) :=
  seeds_from_mask_model (seed_mask_of labels) (3, 3, 3)

/-- Modelled from the spec: `peaks_from_model` with a `mask` argument
extracts peak directions only at voxels inside the mask and leaves every
other voxel empty (the library's code is not part of this repository). -/
def peaks_from_model_mask {α : Type} (peakAt : Nat → α) (mask : List Bool) :
    Nat → Option α :=
  fun i => if mask.getD i false then some (peakAt i) else none

/-- The peak field the notebook requests: masked by `white_matter`. -/
def notebookPeaks {α : Type} (labels : List Nat) (peakAt : Nat → α) :
    Nat → Option α :=
  peaks_from_model_mask peakAt (white_matter_of labels)

/-! ## Concrete library instances, inputs for witnesses -/

/-- A concrete, everywhere-succeeding instance of the dipy interface. -/
def testLib : DipyLib where
  get_fnames3 := fun _ => .ok ("hardi.nii", "hardi.bval", "hardi.bvec")
  get_fnames1 := fun _ => .ok "labels.nii"
  load_nifti := fun _ => .ok (⟨0⟩, ⟨0⟩, ⟨7⟩)
  read_bvals_bvecs := fun _ _ => .ok ([0, 1000], [(0, 0, 0), (1, 0, 0)])
  gradient_table := fun _ _ => .ok ⟨0⟩
  median_otsu := fun _ _ _ _ => .ok (⟨1⟩, [true])
  load_nifti_data := fun _ => .ok [1, 2, 0]
  TensorModel := fun _ => .ok ⟨0⟩
  peaks_from_model := fun _ _ _ _ _ _ => .ok ⟨0⟩
  viz_peaks_png := fun _ => .ok [137, 80]
  seeds_from_mask := fun _ _ _ => .ok ⟨0⟩
  fit := fun _ _ => .ok ⟨0⟩
  fa_of := fun _ => .ok ⟨0⟩
  ThresholdStoppingCriterion := fun _ _ => .ok ⟨0⟩
  LocalTracking := fun _ _ _ _ _ => .ok ⟨0⟩
  StreamlinesOf := fun _ => .ok ⟨5⟩
  viz_stream_png := fun _ => .ok [137, 81]
  save_trk_bytes := fun _ _ => .ok [84, 82, 65]

/-- The outcome of a successful `testLib` run. -/
def testRes : RunResult := ⟨⟨5⟩, ⟨⟨5⟩, ⟨7⟩, SpaceT.RASMM⟩, [84, 82, 65]⟩

/-- `testLib` with a failing tracking step. -/
def testLibErr : DipyLib :=
  { testLib with LocalTracking := fun _ _ _ _ _ => .error "tracking failed" }

/-! ## Helper lemmas -/

/-- A successful visualization cell only writes its own image file. -/
theorem vizStep_ok_mem (b : Bool) (r : Except Err (List Nat)) (n : String)
    (w : List FileWrite) (h : vizStep b r n = .ok w) : ∀ x ∈ w, x.1 = n := by
  cases b with
  | false =>
    simp only [vizStep, Bool.false_eq_true, if_false] at h
    simp only [Except.ok.injEq] at h
    subst h
    simp
  | true =>
    simp only [vizStep, if_true] at h
    cases r with
    | error e => simp at h
    | ok png =>
      simp only [Except.ok.injEq] at h
      subst h
      simp

/-- Case analysis of a run: either some step failed, the run aborted, and no
`.trk` file was written; or every step succeeded, the outcome agrees with
the visualization-free compute core, and exactly the one output tractogram
is among the files written. -/
theorem runNotebook_master (lib : DipyLib) (b : Bool) :
    (∃ e, (runNotebook lib b).2 = Except.error e ∧
      ∀ w ∈ (runNotebook lib b).1, isTrkFileName w.1 = false) ∨
    (∃ r c, (runNotebook lib b).2 = Except.ok r ∧ runCore lib = Except.ok c ∧
      r.streamlines = c.streamlines ∧ r.trkBytes = c.trkBytes ∧
      r.sft = ⟨c.streamlines, c.refimg, SpaceT.RASMM⟩ ∧
      ((runNotebook lib b).1.filter fun w => isTrkFileName w.1)
        = [("dti_CC_tractography_deterministic.trk", c.trkBytes)]) := by
  unfold runNotebook runCore
  cases hA : lib.get_fnames3 "stanford_hardi" with
  | error e => exact Or.inl ⟨e, by simp [hA], by simp [hA]⟩
  | ok tA =>
  obtain ⟨hardi_fname, hardi_bval_fname, hardi_bvec_fname⟩ := tA
  simp only [hA]
  cases hB : lib.load_nifti hardi_fname with
  | error e => exact Or.inl ⟨e, by simp [hB], by simp [hB]⟩
  | ok tB =>
  obtain ⟨data, affine, hardi_img⟩ := tB
  simp only [hB]
  cases hC : lib.read_bvals_bvecs hardi_bval_fname hardi_bvec_fname with
  | error e => exact Or.inl ⟨e, by simp [hC], by simp [hC]⟩
  | ok tC =>
  obtain ⟨bvals, bvecs⟩ := tC
  simp only [hC]
  cases hD : lib.gradient_table bvals bvecs with
  | error e => exact Or.inl ⟨e, by simp [hD], by simp [hD]⟩
  | ok gtab =>
  simp only [hD]
  cases hE : lib.median_otsu data [0, 1, 2, 3, 4, 5, 6, 7, 8] 1 5 with
  | error e => exact Or.inl ⟨e, by simp [hE], by simp [hE]⟩
  | ok tE =>
  obtain ⟨maskdata, msk⟩ := tE
  simp only [hE]
  cases hF : lib.get_fnames1 "stanford_labels" with
  | error e => exact Or.inl ⟨e, by simp [hF], by simp [hF]⟩
  | ok label_fname =>
  simp only [hF]
  cases hG : lib.load_nifti_data label_fname with
  | error e => exact Or.inl ⟨e, by simp [hG], by simp [hG]⟩
  | ok labels =>
  simp only [hG]
  cases hH : lib.TensorModel gtab with
  | error e => exact Or.inl ⟨e, by simp [hH], by simp [hH]⟩
  | ok dti_model =>
  simp only [hH]
  cases hI : lib.peaks_from_model dti_model maskdata default_sphere
      ((8 : Rat) / 10) 45 (white_matter_of labels) with
  | error e => exact Or.inl ⟨e, by simp [hI], by simp [hI]⟩
  | ok dti_peaks =>
  simp only [hI]
  cases hV1 : vizStep b (lib.viz_peaks_png dti_peaks) "dti_direction_field.png" with
  | error e => exact Or.inl ⟨e, by simp [hV1], by simp [hV1]⟩
  | ok w1 =>
  simp only [hV1]
  have hw1 : ∀ x ∈ w1, x.1 = "dti_direction_field.png" :=
    vizStep_ok_mem _ _ _ _ hV1
  have hw1trk : ∀ x ∈ w1, isTrkFileName x.1 = false := by
    intro x hx
    rw [hw1 x hx]
    decide
  cases hJ : lib.seeds_from_mask (seed_mask_of labels) affine [3, 3, 3] with
  | error e => exact Or.inl ⟨e, by simp [hJ], by simpa [hJ] using hw1trk⟩
  | ok seeds =>
  simp only [hJ]
  cases hK : lib.fit dti_model maskdata with
  | error e => exact Or.inl ⟨e, by simp [hK], by simpa [hK] using hw1trk⟩
  | ok dti_fit =>
  simp only [hK]
  cases hL : lib.fa_of dti_fit with
  | error e => exact Or.inl ⟨e, by simp [hL], by simpa [hL] using hw1trk⟩
  | ok fa =>
  simp only [hL]
  cases hM : lib.ThresholdStoppingCriterion fa ((2 : Rat) / 10) with
  | error e => exact Or.inl ⟨e, by simp [hM], by simpa [hM] using hw1trk⟩
  | ok stopping_criterion =>
  simp only [hM]
  cases hN : lib.LocalTracking dti_peaks stopping_criterion seeds affine
      ((5 : Rat) / 10) with
  | error e => exact Or.inl ⟨e, by simp [hN], by simpa [hN] using hw1trk⟩
  | ok streamlines_generator =>
  simp only [hN]
  cases hO : lib.StreamlinesOf streamlines_generator with
  | error e => exact Or.inl ⟨e, by simp [hO], by simpa [hO] using hw1trk⟩
  | ok streamlines =>
  simp only [hO]
  cases hV2 : vizStep b (lib.viz_stream_png streamlines) "dti_tractogram.png" with
  | error e => exact Or.inl ⟨e, by simp [hV2], by simpa [hV2] using hw1trk⟩
  | ok w2 =>
  simp only [hV2]
  have hw2 : ∀ x ∈ w2, x.1 = "dti_tractogram.png" :=
    vizStep_ok_mem _ _ _ _ hV2
  have hw2trk : ∀ x ∈ w2, isTrkFileName x.1 = false := by
    intro x hx
    rw [hw2 x hx]
    decide
  cases hP : lib.save_trk_bytes ⟨streamlines, hardi_img, SpaceT.RASMM⟩ streamlines with
  | error e =>
    refine Or.inl ⟨e, by simp [hP], ?_⟩
    simp only [hP]
    intro x hx
    rcases List.mem_append.mp hx with h1 | h2
    · exact hw1trk x h1
    · exact hw2trk x h2
  | ok trk =>
  simp only [hP]
  refine Or.inr ⟨⟨streamlines, ⟨streamlines, hardi_img, SpaceT.RASMM⟩, trk⟩,
    ⟨streamlines, hardi_img, trk⟩, rfl, rfl, rfl, rfl, rfl, ?_⟩
  rw [List.filter_append, List.filter_append]
  rw [List.filter_eq_nil_iff.mpr fun a ha => by rw [hw1 a ha]; decide]
  rw [List.filter_eq_nil_iff.mpr fun a ha => by rw [hw2 a ha]; decide]
  simp
  decide

/-! ## Static claims -/

/-- C2: the notebook performs its operations in the claimed order — loading
the sample dataset, masking it with `median_otsu`, constructing the tensor
model and extracting peak directions, defining seeds and a stopping
criterion, running local tracking and collecting streamlines, and finally
saving — and no statement runs before the statements that define every name
it consumes. -/
theorem claim_C2_pipeline_order :
    depsRespected notebookStmts = true ∧
    firstCallIdx notebookStmts "get_fnames" < firstCallIdx notebookStmts "median_otsu" ∧
    firstCallIdx notebookStmts "median_otsu" < firstCallIdx notebookStmts "TensorModel" ∧
    firstCallIdx notebookStmts "TensorModel" < firstCallIdx notebookStmts "peaks_from_model" ∧
    firstCallIdx notebookStmts "peaks_from_model" < firstCallIdx notebookStmts "seeds_from_mask" ∧
    firstCallIdx notebookStmts "seeds_from_mask" <
      firstCallIdx notebookStmts "ThresholdStoppingCriterion" ∧
    firstCallIdx notebookStmts "ThresholdStoppingCriterion" <
      firstCallIdx notebookStmts "LocalTracking" ∧
    firstCallIdx notebookStmts "LocalTracking" < firstCallIdx notebookStmts "Streamlines" ∧
    firstCallIdx notebookStmts "Streamlines" < firstCallIdx notebookStmts "save_trk" := by
  decide

/-- C3: the pipeline's library calls use fixed literal tuning parameters —
dataset name `stanford_hardi`, relative peak threshold 0.8, minimum
separation angle 45, FA stopping threshold 0.2, tracking step size 0.5 —
and every tuning parameter of every call in the notebook is a literal, so
none depends on the input data. -/
theorem claim_C3_fixed_literal_params :
    argOf notebookStmts "get_fnames" "name" = some (.lit (.pstr "stanford_hardi")) ∧
    argOf notebookStmts "peaks_from_model" "relative_peak_threshold"
      = some (.lit (.pfrac 8 10)) ∧
    argOf notebookStmts "peaks_from_model" "min_separation_angle"
      = some (.lit (.pnat 45)) ∧
    argOf notebookStmts "ThresholdStoppingCriterion" "threshold"
      = some (.lit (.pfrac 2 10)) ∧
    argOf notebookStmts "LocalTracking" "step_size" = some (.lit (.pfrac 5 10)) ∧
    notebookStmts.all tuningLiteral = true := by
  decide

/-- C4 counterexample: the notebook is not free of branching and of its own
data transformations — it contains guarded statements (the two
`if has_fury:` visualization blocks) and notebook-computed transformations
(the elementwise label-mask comparisons and the `fa` attribute access). -/
theorem claim_C4_counterexample :
    (notebookStmts.any fun s => s.guard.isSome) = true ∧
    (notebookStmts.any fun s => ownTransformK s.kind) = true := by
  decide

/-- C4 amended: beyond parameter selection and sequencing of library calls,
the notebook's own logic is limited to visualization blocks guarded by
`has_fury` (its only branching) and elementwise label comparisons over the
label volume plus one attribute access (its only own data transformations). -/
theorem claim_C4_amended_only_viz_guards_and_label_masks :
    (notebookStmts.all fun s =>
      (s.guard == none || (s.guard == some "has_fury" && isVizK s.kind)) &&
      (!(ownTransformK s.kind) ||
        (match s.kind with
         | .labelMask src vals => src == "labels" && (vals == [1, 2] || vals == [2])
         | .attrGet a => a == "fa"
         | _ => false))) = true := by
  decide

/-- C7 counterexample: the notebook does start operating-system processes of
its own — the shell-escape cells (`dir` and four `dipy_horizon`
invocations) each launch a child process. -/
theorem claim_C7_counterexample :
    (notebookStmts.any fun s => startsProcessK s.kind) = true := by
  decide

/-- C7 amended: the notebook creates no concurrency — no statement spawns a
thread or an asynchronous task, and every shell escape runs synchronously
(no background job), so execution is a single sequential script even though
the shell cells start child processes; those cells are exactly `dir` and
five `dipy_horizon` invocations. -/
theorem claim_C7_amended_no_threads_no_async :
    (notebookStmts.all fun s =>
      !(isThreadK s.kind) && !(isAsyncK s.kind) && shellSync s.kind) = true ∧
    ((notebookStmts.filter fun s => startsProcessK s.kind).map fun s =>
        match s.kind with
        | .shellCmd c _ => c
        | _ => "")
      = ["dir",
         "dipy_horizon dti_CC*trk",
         "dipy_horizon dti_CC*trk tensor_fa.nii.gz",
         "dipy_horizon dti_CC*trk tensor_md.nii.gz",
         "dipy_horizon dti_CC*trk tensor_ad.nii.gz",
         "dipy_horizon dti_CC*trk tensor_rd.nii.gz"] := by
  refine ⟨by decide, by decide⟩

/-! ## Dynamic claims -/

/-- C1: the pipeline is deterministic — for one and the same input (the
library closed over its dataset) any two successful runs produce the same
streamlines object and byte-identical saved tractogram content. -/
theorem claim_C1_pipeline_deterministic (lib : DipyLib) (b : Bool)
    (r1 r2 : RunResult)
    (h1 : (runNotebook lib b).2 = Except.ok r1)
    (h2 : (runNotebook lib b).2 = Except.ok r2) :
    r1.streamlines = r2.streamlines ∧ r1.trkBytes = r2.trkBytes := by
  cases Except.ok.inj (h1.symm.trans h2)
  exact ⟨rfl, rfl⟩

/-- C5: the notebook contains no exception handling of its own — no
statement is a try/except block, and whenever a library call fails the run
aborts with that error and the output tractogram file is not among the
files written. -/
theorem claim_C5_no_failure_handling :
    (notebookStmts.all fun s => !(isTryK s.kind)) = true ∧
    ∀ (lib : DipyLib) (b : Bool) (e : Err),
      (runNotebook lib b).2 = Except.error e →
      ∀ w ∈ (runNotebook lib b).1, isTrkFileName w.1 = false := by
  refine ⟨by decide, ?_⟩
  intro lib b e he w hw
  rcases runNotebook_master lib b with ⟨e', he', hall⟩ | ⟨r, c, hok, -⟩
  · exact hall w hw
  · rw [hok] at he
    exact absurd he (by simp)

/-- C6: every successful run writes exactly one tractography file — the
`.trk` writes are exactly the single file
`dti_CC_tractography_deterministic.trk`, and the saved StatefulTractogram
wraps the generated streamlines in RASMM space. -/
theorem claim_C6_single_trk_output (lib : DipyLib) (b : Bool) (r : RunResult)
    (h : (runNotebook lib b).2 = Except.ok r) :
    ((runNotebook lib b).1.filter fun w => isTrkFileName w.1)
      = [("dti_CC_tractography_deterministic.trk", r.trkBytes)] ∧
    r.sft.space = SpaceT.RASMM ∧ r.sft.streams = r.streamlines := by
  rcases runNotebook_master lib b with ⟨e, he, -⟩ | ⟨r', c, hok, hc, hs, ht, hsft, hf⟩
  · rw [he] at h
    exact absurd h (by simp)
  cases Except.ok.inj (hok.symm.trans h)
  refine ⟨?_, ?_, ?_⟩
  · rw [ht]
    exact hf
  · rw [hsft]
  · rw [hsft]
    exact hs.symm

/-- C10: `has_fury` does not influence the tractography result — two
successful runs of the same library that differ only in `has_fury` produce
the same streamlines, the same tractogram bytes, and the same `.trk` file
writes. -/
theorem claim_C10_has_fury_independence (lib : DipyLib) (b1 b2 : Bool)
    (r1 r2 : RunResult)
    (h1 : (runNotebook lib b1).2 = Except.ok r1)
    (h2 : (runNotebook lib b2).2 = Except.ok r2) :
    r1.streamlines = r2.streamlines ∧ r1.trkBytes = r2.trkBytes ∧
    ((runNotebook lib b1).1.filter fun w => isTrkFileName w.1)
      = ((runNotebook lib b2).1.filter fun w => isTrkFileName w.1) := by
  rcases runNotebook_master lib b1 with ⟨e, he, -⟩ | ⟨r1', c1, hok1, hc1, hs1, ht1, -, hf1⟩
  · rw [he] at h1
    exact absurd h1 (by simp)
  rcases runNotebook_master lib b2 with ⟨e, he, -⟩ | ⟨r2', c2, hok2, hc2, hs2, ht2, -, hf2⟩
  · rw [he] at h2
    exact absurd h2 (by simp)
  cases Except.ok.inj (hok1.symm.trans h1)
  cases Except.ok.inj (hok2.symm.trans h2)
  cases Except.ok.inj (hc1.symm.trans hc2)
  exact ⟨hs1.trans hs2.symm, ht1.trans ht2.symm, hf1.trans hf2.symm⟩

theorem claim_C1_witness :
    testRes.streamlines = testRes.streamlines ∧ testRes.trkBytes = testRes.trkBytes :=
  claim_C1_pipeline_deterministic testLib true testRes testRes rfl rfl

theorem claim_C5_witness :
    isTrkFileName ("dti_direction_field.png", ([137, 80] : List Nat)).1 = false :=
  claim_C5_no_failure_handling.2 testLibErr true "tracking failed" rfl
    ("dti_direction_field.png", [137, 80]) (by decide)

theorem claim_C6_witness :
    ((runNotebook testLib true).1.filter fun w => isTrkFileName w.1)
      = [("dti_CC_tractography_deterministic.trk", testRes.trkBytes)] ∧
    testRes.sft.space = SpaceT.RASMM ∧ testRes.sft.streams = testRes.streamlines :=
  claim_C6_single_trk_output testLib true testRes rfl

theorem claim_C10_witness :
    testRes.streamlines = testRes.streamlines ∧ testRes.trkBytes = testRes.trkBytes ∧
    ((runNotebook testLib true).1.filter fun w => isTrkFileName w.1)
      = ((runNotebook testLib false).1.filter fun w => isTrkFileName w.1) :=
  claim_C10_has_fury_independence testLib true false testRes testRes rfl rfl

/-! ## Seed and peak mask lemmas -/

/-- Looking up the notebook's seed mask is comparing the label with 2. -/
theorem seed_mask_getD (labels : List Nat) (i : Nat) :
    (seed_mask_of labels).getD i false = (labels.getD i 0 == 2) := by
  simp only [seed_mask_of, List.getD_eq_getElem?_getD, List.getElem?_map]
  cases labels[i]? <;> simp

/-- Looking up the notebook's white-matter mask is comparing the label with
1 and with 2. -/
theorem white_matter_getD (labels : List Nat) (i : Nat) :
    (white_matter_of labels).getD i false
      = (labels.getD i 0 == 1 || labels.getD i 0 == 2) := by
  simp only [white_matter_of, List.getD_eq_getElem?_getD, List.getElem?_map]
  cases labels[i]? <;> simp

/-- Counting pairs by first component over a per-voxel grid expansion. -/
theorem countP_flatMap_fst (L : List Nat) (G : List (Nat × Nat × Nat)) (v : Nat)
    (hnd : L.Nodup) :
    ((L.flatMap fun i => G.map fun off => (i, off)).countP fun s => s.1 == v)
      = if v ∈ L then G.length else 0 := by
  induction L with
  | nil => simp
  | cons a L ih =>
    rw [List.flatMap_cons, List.countP_append]
    rcases List.nodup_cons.mp hnd with ⟨hna, hndL⟩
    have hmap : ((G.map fun off => (a, off)).countP fun s => s.1 == v)
        = if a = v then G.length else 0 := by
      rw [List.countP_map]
      by_cases hav : a = v
      · subst hav
        simp [Function.comp_def]
      · simp [Function.comp_def, hav]
    rw [hmap, ih hndL]
    by_cases hav : a = v
    · subst hav
      simp [hna]
    · have hva : ¬v = a := fun h => hav h.symm
      simp [List.mem_cons, hva, hav]

/-- Every seed the notebook requests sits in a voxel labelled 2. -/
theorem mem_notebookSeeds (labels : List Nat) (s : Nat × (Nat × Nat × Nat))
    (hs : s ∈ notebookSeeds labels) : labels.getD s.1 0 = 2 := by
  simp only [notebookSeeds, seeds_from_mask_model, List.mem_flatMap, List.mem_map,
    List.mem_filter, List.mem_range] at hs
  obtain ⟨i, ⟨hi, hmask⟩, off, hoff, rfl⟩ := hs
  have h := seed_mask_getD labels i
  rw [hmask] at h
  simpa using h.symm

/-- Every voxel labelled 2 receives exactly 27 seeds. -/
theorem countP_notebookSeeds (labels : List Nat) (v : Nat)
    (hv : v < labels.length) (h2 : labels.getD v 0 = 2) :
    ((notebookSeeds labels).countP fun s => s.1 == v) = 27 := by
  have hnd : (((List.range (seed_mask_of labels).length)).filter
      fun i => (seed_mask_of labels).getD i false).Nodup :=
    (List.nodup_range _).filter _
  have hlen : (seed_mask_of labels).length = labels.length := by
    simp [seed_mask_of]
  have hmem : v ∈ ((List.range (seed_mask_of labels).length).filter
      fun i => (seed_mask_of labels).getD i false) := by
    rw [List.mem_filter, List.mem_range, hlen, seed_mask_getD, h2]
    exact ⟨hv, by simp⟩
  rw [notebookSeeds, seeds_from_mask_model, countP_flatMap_fst _ _ _ hnd, if_pos hmem]
  decide

/-- A voxel not labelled 2 receives no seed. -/
theorem countP_notebookSeeds_zero (labels : List Nat) (v : Nat)
    (h2 : labels.getD v 0 ≠ 2) :
    ((notebookSeeds labels).countP fun s => s.1 == v) = 0 := by
  rw [List.countP_eq_zero]
  intro s hs hsv
  apply h2
  have h := mem_notebookSeeds labels s hs
  rwa [show s.1 = v from by simpa using hsv] at h

/-- C8: seeds are placed only in voxels whose label equals 2, at 3 x 3 x 3
density — every seed sits in a voxel labelled 2, every in-range voxel
labelled 2 receives exactly 27 seeds, and any voxel with a different label
receives none. -/
theorem claim_C8_seeds_label2_density27 (labels : List Nat) :
    (∀ s ∈ notebookSeeds labels, labels.getD s.1 0 = 2) ∧
    (∀ v, v < labels.length → labels.getD v 0 = 2 →
      ((notebookSeeds labels).countP fun s => s.1 == v) = 27) ∧
    (∀ v, labels.getD v 0 ≠ 2 →
      ((notebookSeeds labels).countP fun s => s.1 == v) = 0) :=
  ⟨mem_notebookSeeds labels, countP_notebookSeeds labels,
   countP_notebookSeeds_zero labels⟩

theorem claim_C8_witness :
    ((notebookSeeds [0, 2, 2]).countP fun s => s.1 == 1) = 27 ∧
    ((notebookSeeds [0, 2, 2]).countP fun s => s.1 == 0) = 0 :=
  ⟨(claim_C8_seeds_label2_density27 [0, 2, 2]).2.1 1 (by decide) (by decide),
   (claim_C8_seeds_label2_density27 [0, 2, 2]).2.2 0 (by decide)⟩

/-- C9: peak directions are extracted only inside the white-matter mask —
the mask the notebook passes is true exactly where the label is 1 or 2, a
voxel with any other label gets no peak direction, and every in-range voxel
labelled 1 or 2 gets one. -/
theorem claim_C9_peaks_only_white_matter {α : Type} (labels : List Nat)
    (peakAt : Nat → α) (i : Nat) :
    ((white_matter_of labels).getD i false
      = (labels.getD i 0 == 1 || labels.getD i 0 == 2)) ∧
    (¬(labels.getD i 0 = 1 ∨ labels.getD i 0 = 2) →
      notebookPeaks labels peakAt i = none) ∧
    (i < labels.length → (labels.getD i 0 = 1 ∨ labels.getD i 0 = 2) →
      notebookPeaks labels peakAt i = some (peakAt i)) := by
  refine ⟨white_matter_getD labels i, ?_, ?_⟩
  · intro h
    push_neg at h
    rcases h with ⟨h1, h2⟩
    unfold notebookPeaks peaks_from_model_mask
    rw [white_matter_getD]
    rw [List.getD_eq_getElem?_getD] at h1 h2
    simp [h1, h2]
  · intro hi h
    unfold notebookPeaks peaks_from_model_mask
    rw [white_matter_getD]
    rw [List.getD_eq_getElem?_getD] at h
    rcases h with h | h <;> simp [h]

theorem claim_C9_witness :
    notebookPeaks [0, 2, 2] (fun _ => (0 : Nat)) 0 = none ∧
    notebookPeaks [0, 2, 2] (fun _ => (0 : Nat)) 1 = some 0 :=
  ⟨(claim_C9_peaks_only_white_matter [0, 2, 2] (fun _ => (0 : Nat)) 0).2.1
      (by decide),
   (claim_C9_peaks_only_white_matter [0, 2, 2] (fun _ => (0 : Nat)) 1).2.2
      (by decide) (by decide)⟩

end Cygnus
